import Mathlib

/-!
Verification development for the user-resource routes of a small HTTP CRUD
service (`src/users/users.routes.ts`).

The route handlers are embedded as pure Lean functions.  A request body is a
record of optional string fields plus any additional properties (a JS object
is open, so `req.body` may carry extra keys).  JavaScript truthiness is
embedded explicitly: an absent field or the empty string is falsy, while an
array value — including the empty array — is always truthy.

The backing store module (`user.database.ts`) is not among the given sources,
only its callers are; its operations are modelled from the spec's Record
Store contract (§4.1) and are marked as such in their doc comments.

Each handler is embedded twice, faithfully to the same source text:
 * a pure, stateful version over the modelled store, returning the response,
   the post-state and the trace of store operations the handler invoked
   (used for the functional, frame and ordering claims); and
 * a fallible version (suffix `F`) in which the result of each `await`ed
   store call is an `Except Err _` supplied as an argument, embedding the
   handler's try/catch: a thrown error at any call site yields the 500
   response with the raw error as payload (used for the error-propagation
   claims).
-/

/-- Raw error objects are opaque to the handlers; they are only ever
forwarded verbatim in a 500 response, so a string stands in for them. -/
abbrev Err := String

/-- A stored user record.  `id` is the unique identifier assigned by the
store at creation; `extra` holds any request-body properties beyond the
three declared fields (JS objects are open, and the handlers pass `req.body`
through whole). -/
structure UserRecord where
  id : Nat
  username : String
  email : String
  password : String
  extra : List (String × String)
  deriving DecidableEq

/-- A JSON request body as the handlers destructure it: the three declared
fields, each possibly absent, plus any additional properties. -/
structure Body where
  username : Option String
  email : Option String
  password : Option String
  extra : List (String × String)
  deriving DecidableEq

/-- JS truthiness of a destructured body field: `undefined` (absent) and the
empty string are falsy, every other string is truthy. -/
def truthyStr : Option String → Bool
  | none => false
  | some s => s ≠ ""

/-- JS truthiness of an array value: every array, the empty one included, is
truthy, so `!allUsers` on an array result is always false. -/
def truthyArr (_ : List UserRecord) : Bool := true

/-- The register/update guard `!username || !email || !password`. -/
def missingRequired3 (b : Body) : Bool :=
  !truthyStr b.username || !truthyStr b.email || !truthyStr b.password

/-- The login guard `!email || !password`. -/
def missingRequired2 (b : Body) : Bool :=
  !truthyStr b.email || !truthyStr b.password

namespace database

/-- Modelled from the spec: the Record Store state (`user.database.ts` is not
among the given sources).  It holds the user records plus the counter from
which `create` assigns its "new unique id". -/
structure Store where
  users : List UserRecord
  nextId : Nat
  deriving DecidableEq

/-- Modelled from the spec: `findAll() → sequence of User` returns every
record; an empty store yields an empty sequence, not an absence condition. -/
def findAll (s : Store) : List UserRecord :=
  s.users

/-- Modelled from the spec: `findOne(id) → User | not-found`, exact-id
lookup. -/
def findOne (s : Store) (id : Nat) : Option UserRecord :=
  s.users.find? (fun u => u.id == id)

/-- Modelled from the spec: `findByEmail(email) → User | not-found`, linear
scan equality match on email. -/
def findByEmail (s : Store) (email : String) : Option UserRecord :=
  s.users.find? (fun u => u.email == email)

/-- Modelled from the spec: `comparePassword(email, suppliedSecret) → bool`
looks up by email and compares the stored secret to the supplied one by
direct equality. -/
def comparePassword (s : Store) (email pw : String) : Bool :=
  match findByEmail s email with
  | none => false
  | some u => u.password == pw

/-- Modelled from the spec: `create(fields) → User` assigns a new unique id,
stores the record and returns the stored record including the generated id.
The handlers pass the whole request body, so its extra properties are stored
unchanged. -/
def create (s : Store) (b : Body) : UserRecord × Store :=
  let u : UserRecord :=
    { id := s.nextId
      username := b.username.getD ""
      email := b.email.getD ""
      password := b.password.getD ""
      extra := b.extra }
  (u, { users := s.users ++ [u], nextId := s.nextId + 1 })

/-- Modelled from the spec: `update(id, fields) → User | not-found` replaces
all mutable fields of the existing record and fails if the id is absent. -/
def update (s : Store) (id : Nat) (b : Body) : Option UserRecord × Store :=
  match s.users.find? (fun u => u.id == id) with
  | none => (none, s)
  | some u =>
    let u' : UserRecord :=
      { id := u.id
        username := b.username.getD ""
        email := b.email.getD ""
        password := b.password.getD ""
        extra := b.extra }
    (some u', { s with users := s.users.map (fun v => if v.id == id then u' else v) })

/-- Result of the spec's `remove(id) → success | not-found`. -/
inductive RemoveResult where
  | success
  | notFound
  deriving DecidableEq

/-- Modelled from the spec: `remove(id) → success | not-found` deletes the
record and fails if the id is absent. -/
def remove (s : Store) (id : Nat) : RemoveResult × Store :=
  if s.users.any (fun u => u.id == id) then
    (RemoveResult.success, { s with users := s.users.filter (fun u => !(u.id == id)) })
  else
    (RemoveResult.notFound, s)

end database

open database

/-- One invocation of a store operation, as recorded in a handler's trace. -/
inductive StoreOp where
  | findAllOp
  | findOneOp (id : Nat)
  | findByEmailOp (email : String)
  | comparePasswordOp (email pw : String)
  | createOp (b : Body)
  | updateOp (id : Nat) (b : Body)
  | removeOp (id : Nat)
  deriving DecidableEq

/-- `create`, `update` and `remove` mutate the Record Store; all the other
operations are read-only. -/
def StoreOp.isReadOnly : StoreOp → Bool
  | .findAllOp => true
  | .findOneOp _ => true
  | .findByEmailOp _ => true
  | .comparePasswordOp _ _ => true
  | .createOp _ => false
  | .updateOp _ _ => false
  | .removeOp _ => false

/-- A JSON response payload envelope, one constructor per shape the handlers
emit. -/
inductive Payload where
  | msg (s : String)
  | error (s : String)
  | errObj (e : Err)
  | userList (total : Nat) (allUsers : List UserRecord)
  | user (u : UserRecord)
  | newUser (u : UserRecord)
  | updatedUser (u : Option UserRecord)
  deriving DecidableEq

/-- An HTTP response: status code plus JSON payload. -/
structure Response where
  status : Nat
  payload : Payload
  deriving DecidableEq

namespace userRouter

/-- `GET /users`: fetch all users; the `!allUsers` guard maps a falsy result
to 404, but an array — even the empty one — is truthy, so a list result
takes the 200 branch with `total_user` its length. -/
def getUsers (s : Store) : Response × Store × List StoreOp :=
  let allUsers := findAll s
  if !truthyArr allUsers then
    (⟨404, Payload.msg "No users at this time.."⟩, s, [StoreOp.findAllOp])
  else
    (⟨200, Payload.userList allUsers.length allUsers⟩, s, [StoreOp.findAllOp])

/-- `GET /users/:id`: look the id up; absent → 404, found → 200 with the
user. -/
def getUserById (s : Store) (id : Nat) : Response × Store × List StoreOp :=
  match findOne s id with
  | none => (⟨404, Payload.error "User not found!"⟩, s, [StoreOp.findOneOp id])
  | some u => (⟨200, Payload.user u⟩, s, [StoreOp.findOneOp id])

/-- `POST /register`: missing field → 400 before any store call; duplicate
email → 400; otherwise `create(req.body)` and 201 with the new user. -/
def register (s : Store) (b : Body) : Response × Store × List StoreOp :=
  if missingRequired3 b then
    (⟨400, Payload.error "Please provide all the required parameters.."⟩, s, [])
  else
    let email := b.email.getD ""
    match findByEmail s email with
    | some _ =>
      (⟨400, Payload.error "This email has already been registered.."⟩, s,
        [StoreOp.findByEmailOp email])
    | none =>
      let c := create s b
      (⟨201, Payload.newUser c.1⟩, c.2,
        [StoreOp.findByEmailOp email, StoreOp.createOp b])

/-- `POST /login`: missing field → 400; unknown email → 404; password
mismatch → 400; otherwise 200 with the user `findByEmail` returned. -/
def login (s : Store) (b : Body) : Response × Store × List StoreOp :=
  if missingRequired2 b then
    (⟨400, Payload.error "Please provide all the required parameters.."⟩, s, [])
  else
    let email := b.email.getD ""
    let pw := b.password.getD ""
    match findByEmail s email with
    | none =>
      (⟨404, Payload.error "No user exists with the email provided.."⟩, s,
        [StoreOp.findByEmailOp email])
    | some u =>
      if !comparePassword s email pw then
        (⟨400, Payload.error "Incorrect Password!"⟩, s,
          [StoreOp.findByEmailOp email, StoreOp.comparePasswordOp email pw])
      else
        (⟨200, Payload.user u⟩, s,
          [StoreOp.findByEmailOp email, StoreOp.comparePasswordOp email pw])

/-- `PUT /users/:id`: the source awaits `findOne` first, then checks the
three body fields (missing → 401), then the lookup result (absent → 404),
then calls `update(id, req.body)` and returns 201 with its result. -/
def updateUser (s : Store) (id : Nat) (b : Body) : Response × Store × List StoreOp :=
  let getUser := findOne s id
  if missingRequired3 b then
    (⟨401, Payload.error "Please provide all the required parameters.."⟩, s,
      [StoreOp.findOneOp id])
  else
    match getUser with
    | none =>
      (⟨404, Payload.error ("No user with id " ++ toString id)⟩, s,
        [StoreOp.findOneOp id])
    | some _ =>
      let r := update s id b
      (⟨201, Payload.updatedUser r.1⟩, r.2,
        [StoreOp.findOneOp id, StoreOp.updateOp id b])

/-- `DELETE /users/:id`: absent id → 404 without calling `remove`; otherwise
`remove(id)` is awaited, its result discarded, and the response is 200 with
the deletion message. -/
def deleteUser (s : Store) (id : Nat) : Response × Store × List StoreOp :=
  match findOne s id with
  | none => (⟨404, Payload.error "User does not exist"⟩, s, [StoreOp.findOneOp id])
  | some _ =>
    let r := remove s id
    (⟨200, Payload.msg "User deleted"⟩, r.2,
      [StoreOp.findOneOp id, StoreOp.removeOp id])

/-- `GET /users`, fallible variant: the argument is the outcome of the
`await database.findAll()` call; a thrown error is caught and answered with
500 and the raw error object. -/
def getUsersF (rFindAll : Except Err (List UserRecord)) : Response :=
  match rFindAll with
  | .error e => ⟨500, Payload.errObj e⟩
  | .ok allUsers =>
    if !truthyArr allUsers then ⟨404, Payload.msg "No users at this time.."⟩
    else ⟨200, Payload.userList allUsers.length allUsers⟩

/-- `GET /users/:id`, fallible variant over the outcome of `findOne`. -/
def getUserByIdF (rFindOne : Except Err (Option UserRecord)) : Response :=
  match rFindOne with
  | .error e => ⟨500, Payload.errObj e⟩
  | .ok none => ⟨404, Payload.error "User not found!"⟩
  | .ok (some u) => ⟨200, Payload.user u⟩

/-- `POST /register`, fallible variant over the outcomes of `findByEmail`
and `create` (the latter only reached when the former found nothing). -/
def registerF (b : Body) (rFind : Except Err (Option UserRecord))
    (rCreate : Except Err UserRecord) : Response :=
  if missingRequired3 b then
    ⟨400, Payload.error "Please provide all the required parameters.."⟩
  else
    match rFind with
    | .error e => ⟨500, Payload.errObj e⟩
    | .ok (some _) => ⟨400, Payload.error "This email has already been registered.."⟩
    | .ok none =>
      match rCreate with
      | .error e => ⟨500, Payload.errObj e⟩
      | .ok u => ⟨201, Payload.newUser u⟩

/-- `POST /login`, fallible variant over the outcomes of `findByEmail` and
`comparePassword`. -/
def loginF (b : Body) (rFind : Except Err (Option UserRecord))
    (rCmp : Except Err Bool) : Response :=
  if missingRequired2 b then
    ⟨400, Payload.error "Please provide all the required parameters.."⟩
  else
    match rFind with
    | .error e => ⟨500, Payload.errObj e⟩
    | .ok none => ⟨404, Payload.error "No user exists with the email provided.."⟩
    | .ok (some u) =>
      match rCmp with
      | .error e => ⟨500, Payload.errObj e⟩
      | .ok cp => if !cp then ⟨400, Payload.error "Incorrect Password!"⟩
                  else ⟨200, Payload.user u⟩

/-- `PUT /users/:id`, fallible variant: `findOne` is awaited before the
field check, so its error already yields 500 on a body with missing
fields. -/
def updateUserF (id : Nat) (b : Body) (rFindOne : Except Err (Option UserRecord))
    (rUpdate : Except Err (Option UserRecord)) : Response :=
  match rFindOne with
  | .error e => ⟨500, Payload.errObj e⟩
  | .ok getUser =>
    if missingRequired3 b then
      ⟨401, Payload.error "Please provide all the required parameters.."⟩
    else
      match getUser with
      | none => ⟨404, Payload.error ("No user with id " ++ toString id)⟩
      | some _ =>
        match rUpdate with
        | .error e => ⟨500, Payload.errObj e⟩
        | .ok r => ⟨201, Payload.updatedUser r⟩

/-- `DELETE /users/:id`, fallible variant: the value `remove` returns is
discarded; only a thrown error changes the response. -/
def deleteUserF (id : Nat) (rFindOne : Except Err (Option UserRecord))
    (rRemove : Except Err RemoveResult) : Response :=
  match rFindOne with
  | .error e => ⟨500, Payload.errObj e⟩
  | .ok none => ⟨404, Payload.error "User does not exist"⟩
  | .ok (some _) =>
    match rRemove with
    | .error e => ⟨500, Payload.errObj e⟩
    | .ok _ => ⟨200, Payload.msg "User deleted"⟩

end userRouter

open userRouter

/-- A store is well formed when its record ids are pairwise distinct and all
below the fresh-id counter, so `create` indeed assigns a new unique id. -/
def database.Store.wellFormed (s : Store) : Prop :=
  (s.users.map UserRecord.id).Nodup ∧ ∀ u ∈ s.users, u.id < s.nextId

instance (s : Store) : Decidable s.wellFormed := by
  unfold database.Store.wellFormed
  infer_instance

/-- Number of records in the store holding the given email. -/
def countEmail (s : Store) (email : String) : Nat :=
  (s.users.filter (fun u => u.email == email)).length

/-- Sample data: a body with all three fields present plus an extra
property. -/
def bodyA : Body := ⟨some "alice", some "a@x", some "pw", [("role", "admin")]⟩

/-- Sample data: the record `create` builds from `bodyA` on an empty
store. -/
def userA : UserRecord := ⟨0, "alice", "a@x", "pw", [("role", "admin")]⟩

/-- Sample data: a one-user store. -/
def storeA : Store := ⟨[userA], 1⟩

/-- Sample data: the empty store. -/
def storeE : Store := ⟨[], 0⟩

/-- A record found by the id predicate belongs to the list and carries that
id. -/
theorem find?_id_mem {l : List UserRecord} {id : Nat} {u : UserRecord}
    (h : l.find? (fun v => v.id == id) = some u) : u ∈ l ∧ u.id = id := by
  have h1 := List.mem_of_find?_eq_some h
  have h2 := List.find?_some h
  simp only [beq_iff_eq] at h2
  exact ⟨h1, h2⟩

/-- Filtering away an id that occurs nowhere in the list leaves the list
unchanged. -/
theorem filter_ne_of_not_mem {l : List UserRecord} {id : Nat}
    (h : ∀ v ∈ l, v.id ≠ id) : l.filter (fun v => !(v.id == id)) = l := by
  induction l with
  | nil => rfl
  | cons a l ih =>
    have ha : (a.id == id) = false := by
      simpa using h a (List.mem_cons_self a l)
    simp [List.filter_cons, ha, ih (fun v hv => h v (List.mem_cons_of_mem a hv))]

/-- Removing one id from a list with pairwise-distinct ids drops exactly one
element. -/
theorem filter_remove_length {l : List UserRecord} {id : Nat} {u : UserRecord}
    (hnd : (l.map UserRecord.id).Nodup)
    (h : l.find? (fun v => v.id == id) = some u) :
    (l.filter (fun v => !(v.id == id))).length + 1 = l.length := by
  induction l with
  | nil => simp [List.find?] at h
  | cons a l ih =>
    rw [List.map_cons, List.nodup_cons] at hnd
    cases ha : (a.id == id) with
    | true =>
      have haid : a.id = id := by simpa using ha
      have htail : ∀ v ∈ l, v.id ≠ id := by
        intro v hv hvid
        apply hnd.1
        have hmem : v.id ∈ l.map UserRecord.id := List.mem_map_of_mem _ hv
        rwa [hvid, ← haid] at hmem
      simp [List.filter_cons, ha, filter_ne_of_not_mem htail]
    | false =>
      have h' : l.find? (fun v => v.id == id) = some u := by
        rwa [List.find?_cons_of_neg _ (by simp [ha])] at h
      have := ih hnd.2 h'
      simp [List.filter_cons, ha]
      omega

/-- After replacing in place the record holding a found id, looking that id
up yields the replacement. -/
theorem find?_map_replace {l : List UserRecord} {id : Nat} {u u' : UserRecord}
    (h : l.find? (fun v => v.id == id) = some u) (hid : u'.id = u.id) :
    (l.map (fun v => if v.id == id then u' else v)).find? (fun v => v.id == id) =
      some u' := by
  induction l with
  | nil => simp [List.find?] at h
  | cons a l ih =>
    cases ha : (a.id == id) with
    | true =>
      simp only [List.find?_cons, ha] at h
      injection h with h
      subst h
      have hu' : (u'.id == id) = true := by rw [hid]; exact ha
      rw [List.map_cons, if_pos ha, List.find?_cons]
      simp [hu']
    | false =>
      simp only [List.find?_cons, ha] at h
      rw [List.map_cons, if_neg (by simp [ha]), List.find?_cons]
      simp only [ha]
      exact ih h

/-- Appending a record with a fresh id to a list that avoids that id makes
lookup of that id find the appended record. -/
theorem find?_append_fresh {l : List UserRecord} {u : UserRecord} {n : Nat}
    (hl : ∀ v ∈ l, v.id ≠ n) (hu : u.id = n) :
    (l ++ [u]).find? (fun v => v.id == n) = some u := by
  induction l with
  | nil => simp [List.find?, hu]
  | cons a l ih =>
    have ha : (a.id == n) = false := by
      simpa using hl a (List.mem_cons_self a l)
    rw [List.cons_append, List.find?_cons]
    simp only [ha]
    exact ih fun v hv => hl v (List.mem_cons_of_mem a hv)

/-- A successful find by id makes the corresponding `any` check succeed. -/
theorem any_of_find? {l : List UserRecord} {id : Nat} {u : UserRecord}
    (h : l.find? (fun v => v.id == id) = some u) :
    l.any (fun v => v.id == id) = true := by
  rcases find?_id_mem h with ⟨hm, hid⟩
  rw [List.any_eq_true]
  exact ⟨u, hm, by simpa using hid⟩

/-- When the `!username || !email || !password` guard fails, each of the
three fields is present (and equals its `getD` default-free value). -/
theorem fields_of_not_missing3 {b : Body} (h : missingRequired3 b = false) :
    b.username = some (b.username.getD "") ∧ b.email = some (b.email.getD "") ∧
      b.password = some (b.password.getD "") := by
  unfold missingRequired3 truthyStr at h
  cases hu : b.username <;> cases he : b.email <;> cases hp : b.password <;>
    simp [hu, he, hp] at h ⊢

/-- C1: the claim says an empty `findAll` result is answered 404.  In the
source the guard is `if (!allUsers)`, and an array — the empty array
included — is truthy in JavaScript, so the handler answers 200 with
`total_user = 0` on the empty store; the 404 branch is unreachable for any
list result.  This theorem evaluates the handler at the failing input (the
empty store) and shows the 200/`total_user = n` behaviour for every store. -/
theorem getUsers_empty_store_responds_200 :
    (getUsers storeE).1 = ⟨200, Payload.userList 0 []⟩ ∧
      ∀ s : Store, (getUsers s).1 =
        ⟨200, Payload.userList (findAll s).length (findAll s)⟩ :=
  ⟨rfl, fun _ => rfl⟩

/-- C7: the list, by-id and login handlers leave the store unchanged and
their traces contain only read-only operations; in particular none of them
ever invokes `create`, `update` or `remove`. -/
theorem read_routes_leave_store_unchanged (s : Store) (id : Nat) (b : Body) :
    (getUsers s).2.1 = s ∧ (getUsers s).2.2.all StoreOp.isReadOnly = true ∧
    (getUserById s id).2.1 = s ∧
    (getUserById s id).2.2.all StoreOp.isReadOnly = true ∧
    (login s b).2.1 = s ∧ (login s b).2.2.all StoreOp.isReadOnly = true := by
  refine ⟨rfl, rfl, ?_, ?_, ?_, ?_⟩
  · unfold getUserById; cases findOne s id <;> rfl
  · unfold getUserById; cases findOne s id <;> rfl
  · unfold login
    dsimp only
    split
    · rfl
    · split
      · rfl
      · split <;> rfl
  · unfold login
    dsimp only
    split
    · rfl
    · split
      · rfl
      · split <;> rfl

/-- C10: once `findOne` has found a user, the delete handler answers 200
with the deletion message whatever value `remove` returns — the result of
`remove` is discarded — and only a thrown error changes the response, to
500 with the raw error. -/
theorem deleteUser_ignores_remove_result (id : Nat) (u : UserRecord) (e : Err) :
    (∀ rr : RemoveResult,
      deleteUserF id (Except.ok (some u)) (Except.ok rr) =
        ⟨200, Payload.msg "User deleted"⟩) ∧
    deleteUserF id (Except.ok (some u)) (Except.error e) =
      ⟨500, Payload.errObj e⟩ :=
  ⟨fun _ => rfl, rfl⟩

/-- C6: in every user route, a store call whose awaited result is a thrown
error is caught by the handler's try/catch and answered 500 with the raw
error object as payload; the handlers are total functions, so no exception
propagates past them.  One conjunct per reachable call site: `findAll`
(list), `findOne` (by id, put, delete), `findByEmail` (register, login),
`create`, `comparePassword`, `update` and `remove`. -/
theorem store_error_responds_500 (e : Err) (id : Nat) (b : Body)
    (u : UserRecord) (rc : Except Err UserRecord) (rcmp : Except Err Bool)
    (rup : Except Err (Option UserRecord)) (rrm : Except Err RemoveResult) :
    getUsersF (Except.error e) = ⟨500, Payload.errObj e⟩ ∧
    getUserByIdF (Except.error e) = ⟨500, Payload.errObj e⟩ ∧
    (missingRequired3 b = false →
      registerF b (Except.error e) rc = ⟨500, Payload.errObj e⟩) ∧
    (missingRequired3 b = false →
      registerF b (Except.ok none) (Except.error e) = ⟨500, Payload.errObj e⟩) ∧
    (missingRequired2 b = false →
      loginF b (Except.error e) rcmp = ⟨500, Payload.errObj e⟩) ∧
    (missingRequired2 b = false →
      loginF b (Except.ok (some u)) (Except.error e) = ⟨500, Payload.errObj e⟩) ∧
    updateUserF id b (Except.error e) rup = ⟨500, Payload.errObj e⟩ ∧
    (missingRequired3 b = false →
      updateUserF id b (Except.ok (some u)) (Except.error e) =
        ⟨500, Payload.errObj e⟩) ∧
    deleteUserF id (Except.error e) rrm = ⟨500, Payload.errObj e⟩ ∧
    deleteUserF id (Except.ok (some u)) (Except.error e) =
      ⟨500, Payload.errObj e⟩ := by
  refine ⟨rfl, rfl, ?_, ?_, ?_, ?_, rfl, ?_, rfl, rfl⟩ <;>
    intro h <;> simp [registerF, loginF, updateUserF, h]

/-- C6 witness: the 500 mapping at a concrete body, error and user, with
each field-presence hypothesis discharged by evaluation. -/
theorem store_error_responds_500_witness :
    registerF bodyA (Except.error "boom") (Except.ok userA) =
        ⟨500, Payload.errObj "boom"⟩ ∧
    registerF bodyA (Except.ok none) (Except.error "boom") =
        ⟨500, Payload.errObj "boom"⟩ ∧
    loginF bodyA (Except.error "boom") (Except.ok true) =
        ⟨500, Payload.errObj "boom"⟩ ∧
    loginF bodyA (Except.ok (some userA)) (Except.error "boom") =
        ⟨500, Payload.errObj "boom"⟩ ∧
    updateUserF 0 bodyA (Except.ok (some userA)) (Except.error "boom") =
        ⟨500, Payload.errObj "boom"⟩ := by
  have h := store_error_responds_500 "boom" 0 bodyA userA (Except.ok userA)
    (Except.ok true) (Except.ok none) (Except.ok RemoveResult.success)
  exact ⟨h.2.2.1 (by decide), h.2.2.2.1 (by decide), h.2.2.2.2.1 (by decide),
    h.2.2.2.2.2.1 (by decide), h.2.2.2.2.2.2.2.1 (by decide)⟩

/-- C2: the register handler checks field presence first (400, no store call
at all), then the duplicate email (400, only `findByEmail` in the trace, the
store unchanged so an email held by exactly one record is still held by
exactly one), and only then calls `create` on the body, answering 201 with
the new user. -/
theorem register_checks_in_order (s : Store) (b : Body) :
    (missingRequired3 b = true →
      (register s b).1.status = 400 ∧ (register s b).2.2 = [] ∧
        (register s b).2.1 = s) ∧
    (missingRequired3 b = false → ∀ u, findByEmail s (b.email.getD "") = some u →
      (register s b).1.status = 400 ∧
      (register s b).2.2 = [StoreOp.findByEmailOp (b.email.getD "")] ∧
      (register s b).2.1 = s ∧
      (countEmail s (b.email.getD "") = 1 →
        countEmail (register s b).2.1 (b.email.getD "") = 1)) ∧
    (missingRequired3 b = false → findByEmail s (b.email.getD "") = none →
      (register s b).1 = ⟨201, Payload.newUser (create s b).1⟩ ∧
      (register s b).2.1 = (create s b).2 ∧
      (register s b).2.2 =
        [StoreOp.findByEmailOp (b.email.getD ""), StoreOp.createOp b]) := by
  refine ⟨?_, ?_, ?_⟩
  · intro h; simp [register, h]
  · intro h u hf; simp [register, h, hf]
  · intro h hf; simp [register, h, hf]

/-- C2 witness: a missing username is answered 400 with no store call; a
duplicate email is answered 400 leaving one record for that email; a fresh
registration is answered 201. -/
theorem register_checks_in_order_witness :
    (register storeE ⟨none, some "a@x", some "pw", []⟩).1.status = 400 ∧
    (register storeA bodyA).1.status = 400 ∧
    countEmail (register storeA bodyA).2.1 "a@x" = 1 ∧
    (register storeE bodyA).1.status = 201 := by
  have h1 := (register_checks_in_order storeE ⟨none, some "a@x", some "pw", []⟩).1
  have h2 := (register_checks_in_order storeA bodyA).2.1
  have h3 := (register_checks_in_order storeE bodyA).2.2
  refine ⟨(h1 (by decide)).1, (h2 (by decide) userA (by decide)).1, ?_, ?_⟩
  · exact (h2 (by decide) userA (by decide)).2.2.2 (by decide)
  · rw [(h3 (by decide) (by decide)).1]

/-- C3: the login handler checks in order: missing field → 400 (no store
call), unknown email → 404, password mismatch → 400, and otherwise answers
200 with exactly the user `findByEmail` returned; in every case the store
state is left unchanged. -/
theorem login_checks_in_order (s : Store) (b : Body) :
    (login s b).2.1 = s ∧
    (missingRequired2 b = true →
      (login s b).1.status = 400 ∧ (login s b).2.2 = []) ∧
    (missingRequired2 b = false → findByEmail s (b.email.getD "") = none →
      (login s b).1.status = 404) ∧
    (missingRequired2 b = false → ∀ u, findByEmail s (b.email.getD "") = some u →
      (comparePassword s (b.email.getD "") (b.password.getD "") = false →
        (login s b).1.status = 400) ∧
      (comparePassword s (b.email.getD "") (b.password.getD "") = true →
        (login s b).1 = ⟨200, Payload.user u⟩)) := by
  refine ⟨?_, ?_, ?_, ?_⟩
  · unfold login
    dsimp only
    split
    · rfl
    · split
      · rfl
      · split <;> rfl
  · intro h; simp [login, h]
  · intro h hf; simp [login, h, hf]
  · intro h u hf
    constructor
    · intro hc; simp [login, h, hf, hc]
    · intro hc; simp [login, h, hf, hc]

/-- C3 witness: against the one-user store, a missing password, a wrong
password, an unknown email and a correct login each get the claimed
response. -/
theorem login_checks_in_order_witness :
    (login storeA ⟨none, some "a@x", none, []⟩).1.status = 400 ∧
    (login storeA ⟨none, some "b@x", some "pw", []⟩).1.status = 404 ∧
    (login storeA ⟨none, some "a@x", some "wrong", []⟩).1.status = 400 ∧
    (login storeA ⟨none, some "a@x", some "pw", []⟩).1 =
      ⟨200, Payload.user userA⟩ := by
  refine ⟨?_, ?_, ?_, ?_⟩
  · exact ((login_checks_in_order storeA ⟨none, some "a@x", none, []⟩).2.1
      (by decide)).1
  · exact (login_checks_in_order storeA ⟨none, some "b@x", some "pw", []⟩).2.2.1
      (by decide) (by decide)
  · exact ((login_checks_in_order storeA
      ⟨none, some "a@x", some "wrong", []⟩).2.2.2 (by decide) userA
      (by decide)).1 (by decide)
  · exact ((login_checks_in_order storeA
      ⟨none, some "a@x", some "pw", []⟩).2.2.2 (by decide) userA
      (by decide)).2 (by decide)

/-- C4: the put handler answers 401 without calling `update` when a field is
missing, 404 without calling `update` (and without touching the store) when
the id does not resolve, and otherwise calls `update(id, body)` — after
which the record under that id holds exactly the body's username, email and
password — answering 201 with the updated user. -/
theorem put_checks_in_order (s : Store) (id : Nat) (b : Body) :
    (missingRequired3 b = true →
      (updateUser s id b).1.status = 401 ∧
      (∀ x, StoreOp.updateOp id x ∉ (updateUser s id b).2.2) ∧
      (updateUser s id b).2.1 = s) ∧
    (missingRequired3 b = false → findOne s id = none →
      (updateUser s id b).1.status = 404 ∧
      (∀ x, StoreOp.updateOp id x ∉ (updateUser s id b).2.2) ∧
      (updateUser s id b).2.1 = s) ∧
    (missingRequired3 b = false → ∀ u, findOne s id = some u →
      (updateUser s id b).1 = ⟨201, Payload.updatedUser (update s id b).1⟩ ∧
      (updateUser s id b).2.2 = [StoreOp.findOneOp id, StoreOp.updateOp id b] ∧
      findOne (updateUser s id b).2.1 id =
        some { id := u.id, username := b.username.getD "",
               email := b.email.getD "", password := b.password.getD "",
               extra := b.extra }) := by
  refine ⟨?_, ?_, ?_⟩
  · intro h; simp [updateUser, h]
  · intro h hf; simp [updateUser, h, hf]
  · intro h u hf
    have hf' : s.users.find? (fun v => v.id == id) = some u := hf
    refine ⟨?_, ?_, ?_⟩
    · simp [updateUser, h, hf]
    · simp [updateUser, h, hf]
    · simp only [updateUser, h, hf, database.update, hf', findOne]
      exact find?_map_replace hf' rfl

/-- C4 witness: a missing field is answered 401, a nonexistent id 404, and a
full-field update of the existing record 201 with the replaced values. -/
theorem put_checks_in_order_witness :
    (updateUser storeA 0 ⟨none, some "a@x", some "pw", []⟩).1.status = 401 ∧
    (updateUser storeA 5 ⟨some "bob", some "b@x", some "pw2", []⟩).1.status
      = 404 ∧
    findOne (updateUser storeA 0 ⟨some "bob", some "b@x", some "pw2", []⟩).2.1
      0 = some ⟨0, "bob", "b@x", "pw2", []⟩ := by
  refine ⟨?_, ?_, ?_⟩
  · exact ((put_checks_in_order storeA 0 ⟨none, some "a@x", some "pw", []⟩).1
      (by decide)).1
  · exact ((put_checks_in_order storeA 5
      ⟨some "bob", some "b@x", some "pw2", []⟩).2.1 (by decide) (by decide)).1
  · exact ((put_checks_in_order storeA 0
      ⟨some "bob", some "b@x", some "pw2", []⟩).2.2 (by decide) userA
      (by decide)).2.2

/-- C5: on a store with pairwise-distinct record ids, deleting an id that
does not resolve answers 404 with `remove` never called and the store —
hence its size — unchanged, while deleting an id that resolves calls
`remove`, leaves exactly the records with other ids and drops the size by
exactly one, answering 200 with the deletion message. -/
theorem delete_spec (s : Store) (id : Nat) (hwf : s.wellFormed) :
    (findOne s id = none →
      (deleteUser s id).1.status = 404 ∧
      StoreOp.removeOp id ∉ (deleteUser s id).2.2 ∧
      (deleteUser s id).2.1 = s) ∧
    (∀ u, findOne s id = some u →
      (deleteUser s id).1 = ⟨200, Payload.msg "User deleted"⟩ ∧
      StoreOp.removeOp id ∈ (deleteUser s id).2.2 ∧
      (deleteUser s id).2.1.users = s.users.filter (fun v => !(v.id == id)) ∧
      (deleteUser s id).2.1.users.length + 1 = s.users.length) := by
  refine ⟨?_, ?_⟩
  · intro hf; simp [deleteUser, hf]
  · intro u hf
    have hf' : s.users.find? (fun v => v.id == id) = some u := hf
    have hany := any_of_find? hf'
    refine ⟨?_, ?_, ?_, ?_⟩
    · simp [deleteUser, hf]
    · simp [deleteUser, hf]
    · simp [deleteUser, database.remove, hf, hany]
    · have hlen := filter_remove_length hwf.1 hf'
      simp [deleteUser, database.remove, hf, hany]
      omega

/-- C5 witness: on the one-user store, deleting id 5 is answered 404 with
the store intact, and deleting id 0 removes exactly that record and is
answered 200. -/
theorem delete_spec_witness :
    (deleteUser storeA 5).1.status = 404 ∧
    (deleteUser storeA 5).2.1 = storeA ∧
    (deleteUser storeA 0).1 = ⟨200, Payload.msg "User deleted"⟩ ∧
    (deleteUser storeA 0).2.1.users.length + 1 = storeA.users.length := by
  have h5 := (delete_spec storeA 5 (by decide)).1 (by decide)
  have h0 := (delete_spec storeA 0 (by decide)).2 userA (by decide)
  exact ⟨h5.1, h5.2.2, h0.1, h0.2.2.2⟩

/-- C8: a valid registration (all three fields present, email unknown) on a
well-formed store is answered 201 with the created record, fetching by that
record's id returns the very same record, and its username, email and
password are exactly the values supplied in the request body. -/
theorem register_roundtrip (s : Store) (b : Body) (hwf : s.wellFormed)
    (hm : missingRequired3 b = false)
    (hd : findByEmail s (b.email.getD "") = none) :
    (register s b).1 = ⟨201, Payload.newUser (create s b).1⟩ ∧
    (getUserById (register s b).2.1 (create s b).1.id).1 =
      ⟨200, Payload.user (create s b).1⟩ ∧
    some (create s b).1.username = b.username ∧
    some (create s b).1.email = b.email ∧
    some (create s b).1.password = b.password := by
  obtain ⟨hu, he, hp⟩ := fields_of_not_missing3 hm
  have hfresh : ∀ v ∈ s.users, v.id ≠ s.nextId := fun v hv =>
    Nat.ne_of_lt (hwf.2 v hv)
  have hfind : (s.users ++ [(create s b).1]).find?
      (fun v => v.id == s.nextId) = some (create s b).1 :=
    find?_append_fresh hfresh rfl
  have hnone : s.users.find? (fun v => v.id == s.nextId) = none :=
    List.find?_eq_none.mpr fun v hv => by simpa using hfresh v hv
  refine ⟨?_, ?_, hu.symm, he.symm, hp.symm⟩
  · simp [register, hm, hd]
  · simp [register, hm, hd, getUserById, findOne, database.create, hnone]

/-- C8 witness: registering `bodyA` on the empty store and fetching id 0
returns the record with the supplied field values. -/
theorem register_roundtrip_witness :
    (register storeE bodyA).1 = ⟨201, Payload.newUser userA⟩ ∧
    (getUserById (register storeE bodyA).2.1 0).1 =
      ⟨200, Payload.user userA⟩ := by
  have h := register_roundtrip storeE bodyA (by decide) (by decide) (by decide)
  exact ⟨h.1, h.2.1⟩

/-- C9: the register and put handlers hand the whole request body to
`create` and `update` — the traced operation carries the full body — so a
property beyond username, email and password reaches the store unchanged:
the stored record's extra properties are exactly the body's. -/
theorem body_passed_unfiltered (s : Store) (id : Nat) (b : Body) :
    (missingRequired3 b = false → findByEmail s (b.email.getD "") = none →
      StoreOp.createOp b ∈ (register s b).2.2 ∧
      (create s b).1.extra = b.extra) ∧
    (missingRequired3 b = false → ∀ u, findOne s id = some u →
      StoreOp.updateOp id b ∈ (updateUser s id b).2.2 ∧
      ∀ u', (update s id b).1 = some u' → u'.extra = b.extra) := by
  refine ⟨?_, ?_⟩
  · intro h hf
    refine ⟨?_, rfl⟩
    simp [register, h, hf]
  · intro h u hf
    refine ⟨?_, ?_⟩
    · simp [updateUser, h, hf]
    · intro u' hu'
      have hf' : s.users.find? (fun v => v.id == id) = some u := hf
      simp [database.update, hf'] at hu'
      rw [← hu']

/-- C9 witness: the extra property of `bodyA` survives into the record
created by register and into the record update writes. -/
theorem body_passed_unfiltered_witness :
    StoreOp.createOp bodyA ∈ (register storeE bodyA).2.2 ∧
    (create storeE bodyA).1.extra = [("role", "admin")] ∧
    StoreOp.updateOp 0 bodyA ∈ (updateUser storeA 0 bodyA).2.2 := by
  have h := body_passed_unfiltered storeE 0 bodyA
  have h2 := body_passed_unfiltered storeA 0 bodyA
  refine ⟨(h.1 (by decide) (by decide)).1, ?_, (h2.2 (by decide) userA (by decide)).1⟩
  exact (h.1 (by decide) (by decide)).2
